import Mathlib

set_option maxHeartbeats 1000000

/-!
Shallow embedding of the core components of the deep-patent-agent-search
repository: the quality-gate loop and its escalation checker
(deep-search/app/agent.py), the trace persistence service
(deep-search/app/app_utils/trace_persistence.py), the artifact writer
callbacks (deep-patent-agent-search/app/domain_agents/base.py), the phase
router (scripts/phase_router.py), and the Feedback schema.  Machine-level
Python values are modelled by a JSON value type with explicit Python
truthiness; fallible operations return Except or Option.
-/

/-- JSON-compatible Python values: the shape of session-state entries and of
the data stored in trace files. -/
inductive Json where
  | null
  | bool (b : Bool)
  | num (n : Int)
  | str (s : String)
  | arr (elems : List Json)
  | obj (fields : List (String × Json))

/-- Python truthiness of a JSON-compatible value, as used by
`if evaluation_result and ...` in agent.py line 234. -/
def Json.truthy : Json → Bool
  | .null => false
  | .bool b => b
  | .num n => n != 0
  | .str s => !s.isEmpty
  | .arr elems => !elems.isEmpty
  | .obj fields => !fields.isEmpty

/-- `dict.get` on the fields of a JSON object (first binding wins, as in a
Python dict where keys are unique). -/
def Json.dictGet (fields : List (String × Json)) (k : String) : Option Json :=
  fields.lookup k

/-- ADK session state: a string-keyed mapping of JSON-compatible values
(spec section 3, Session State Store). -/
def SessionState : Type := List (String × Json)

/-- `ctx.session.state.get(key)`. -/
def stateGet (st : SessionState) (k : String) : Option Json :=
  List.lookup k st

/-- The event yielded by EscalationChecker: either an escalate action or a
plain event with no content or actions (agent.py lines 238 and 244). -/
inductive CheckEvent where
  | escalate (author : String)
  | plain (author : String)

/-- EscalationChecker._run_async_impl (agent.py lines 230-244).
`evaluation_result = ctx.session.state.get("research_evaluation")`;
`if evaluation_result and evaluation_result.get("grade") == "pass"` yields
an escalate event, otherwise a plain event.  A truthy value that is not a
dict makes `.get` raise AttributeError, modelled as `.error`. -/
def escalationCheck (name : String) (state : SessionState) :
    Except String CheckEvent :=
  match stateGet state "research_evaluation" with
  | none => .ok (.plain name)
  | some v =>
    if v.truthy then
      match v with
      | .obj fields =>
        match Json.dictGet fields "grade" with
        | some (.str s) =>
          if s = "pass" then .ok (.escalate name) else .ok (.plain name)
        | _ => .ok (.plain name)
      | _ => .error "AttributeError: object has no attribute get"
    else .ok (.plain name)

/-- The two LLM callables inside the iterative refinement loop
(agent.py lines 371-417): research_evaluator writes the key
"research_evaluation", enhanced_search_executor refines the findings.
Both are opaque state transformers here. -/
structure LoopCallables where
  evaluate : SessionState → SessionState
  research : SessionState → SessionState

/-- Tags recording which sub-agent of the loop body ran. -/
inductive StepTag where
  | evalStep
  | checkStep
  | researchStep
deriving DecidableEq

/-- Number of occurrences of one tag in a run transcript. -/
def countTag (tags : List StepTag) (t : StepTag) : Nat :=
  (tags.filter (fun s => decide (s = t))).length

/-- Modelled from the spec: one iteration of the LoopAgent body
(spec section 4.1; the LoopAgent class itself is part of the external ADK
framework, not of this repository).  The body runs research_evaluator, then
EscalationChecker, then enhanced_search_executor in order
(agent.py lines 487-495); an escalate event ends the iteration at once, so
the executor is skipped.  Returns the new state, whether the loop must
stop, and the transcript of steps that ran. -/
def runIteration (c : LoopCallables) (st : SessionState) :
    Except String (SessionState × Bool × List StepTag) :=
  match escalationCheck "escalation_checker" (c.evaluate st) with
  | .error e => .error e
  | .ok (.escalate _) => .ok (c.evaluate st, true, [.evalStep, .checkStep])
  | .ok (.plain _) =>
      .ok (c.research (c.evaluate st), false,
        [.evalStep, .checkStep, .researchStep])

/-- Modelled from the spec: the LoopAgent driver with an iteration ceiling
(spec sections 4.1 and 8): repeat the body at most `n` times, stopping
early when an iteration escalates; the final state is whatever the last
iteration left (used as-is even when still failing). -/
def runLoop (c : LoopCallables) : Nat → SessionState →
    Except String (SessionState × List StepTag)
  | 0, st => .ok (st, [])
  | n + 1, st =>
    match runIteration c st with
    | .error e => .error e
    | .ok (st1, true, steps) => .ok (st1, steps)
    | .ok (st1, false, steps) =>
      match runLoop c n st1 with
      | .error e => .error e
      | .ok (st2, rest) => .ok (st2, steps ++ rest)

/-- The n-fold composition of the non-escalating loop body: evaluate then
research, n times. -/
def loopBodyIter (c : LoopCallables) : Nat → SessionState → SessionState
  | 0, st => st
  | n + 1, st => loopBodyIter c n (c.research (c.evaluate st))

/-! ### String helpers: substring and suffix tests used by filename scans -/

/-- Does the first character list start the second (character-wise)? -/
def prefixAtB : List Char → List Char → Bool
  | [], _ => true
  | _ :: _, [] => false
  | a :: as, b :: bs => a == b && prefixAtB as bs

/-- Does the needle occur as a contiguous run inside the haystack?
Models the Python `needle in haystack` test on strings. -/
def containsSub (needle : List Char) : List Char → Bool
  | [] => needle.isEmpty
  | c :: t => prefixAtB needle (c :: t) || containsSub needle t

/-- `haystack` contains `needle` as a substring (Python `in`). -/
def strContains (hay needle : String) : Bool :=
  containsSub needle.data hay.data

/-- `haystack` ends with `suffix` (models `Path.glob("*.ext")` membership
and `str.endswith`). -/
def strEndsWith (hay suffix : String) : Bool :=
  prefixAtB suffix.data.reverse hay.data.reverse

/-- `haystack` starts with `pre` (models GCS `list_blobs(prefix=...)`). -/
def strStartsWith (hay pre : String) : Bool :=
  prefixAtB pre.data hay.data

/-! ### Trace persistence (deep-search/app/app_utils/trace_persistence.py) -/

/-- A Python datetime object, identified by its isoformat rendering (so
datetime equality is equality to serialization precision).  pydantic v2
model_dump() in its default python mode keeps such an object as-is, and
json.dump has no encoder for it; the module's v1-style
`Config.json_encoders` declaration applies only to JSON-mode dumps. -/
structure PyDateTime where
  iso : String

/-- AgentEventTrace (trace_persistence.py lines 33-49).  The timestamp is
a datetime (default_factory datetime.utcnow); `content` and `metadata`
are `Dict[str, Any]`, the optional fields are `Optional[Dict[str, Any]]`. -/
structure AgentEventTrace where
  trace_id : String
  session_id : String
  timestamp : PyDateTime
  agent_name : String
  event_type : String
  content : List (String × Json)
  metadata : List (String × Json)
  grounding_metadata : Option (List (String × Json)) := none
  actions : Option (List (String × Json)) := none

/-- SessionStateSnapshot (trace_persistence.py lines 51-64). -/
structure SessionStateSnapshot where
  session_id : String
  snapshot_id : String
  timestamp : PyDateTime
  state : List (String × Json)
  sources : List (String × Json)
  url_to_short_id : List (String × String)

/-- TracePersistenceConfig (trace_persistence.py lines 66-74);
`gcs_prefix_dir` embeds the source field holding the GCS object prefix. -/
structure TracePersistenceConfig where
  storage_type : String := "local"
  local_storage_path : String := "agent_traces"
  gcs_bucket_name : Option String := none
  gcs_prefix_dir : String := "traces"

/-- One stored object: a local file or a GCS blob, with its name, parsed
JSON content and modification time (epoch seconds). -/
structure TraceFile where
  name : String
  content : Json
  mtime : Int

/-- The two backends of the service: the local storage directory and the
GCS bucket contents. -/
structure Stores where
  files : List TraceFile
  blobs : List TraceFile

/-- The current UTC time as the service reads it: its strftime
"%Y%m%d_%H%M%S" form (used in file names) and its epoch seconds (used by
cleanup and as the mtime of written files). -/
structure Clock where
  stamp : String
  epoch : Int

/-- _get_trace_file_path (lines 96-100): `{timestamp}_{trace_id}.{file_type}`. -/
def traceFileName (clock : Clock) (trace_id file_type : String) : String :=
  clock.stamp ++ "_" ++ trace_id ++ "." ++ file_type

/-- _get_gcs_blob_path (lines 102-105): `{gcs_prefix}/{timestamp}_{trace_id}.{file_type}`. -/
def gcsBlobPath (cfg : TracePersistenceConfig) (clock : Clock)
    (trace_id file_type : String) : String :=
  cfg.gcs_prefix_dir ++ "/" ++ clock.stamp ++ "_" ++ trace_id ++ "." ++ file_type

/-- `None` becomes JSON null, a dict becomes a JSON object (model_dump of
an Optional[Dict] field). -/
def optDictJson : Option (List (String × Json)) → Json
  | none => .null
  | some fields => .obj fields

/-- A value of the dict returned by model_dump() in python mode: either
JSON-compatible data or a datetime object that the dump left as-is. -/
inductive DumpVal where
  | jsonVal (j : Json)
  | datetimeVal (d : PyDateTime)

/-- `event_trace.model_dump()` (trace_persistence.py line 117): the
python-mode dump of an AgentEventTrace, whose timestamp field stays a
datetime object. -/
def traceModelDump (t : AgentEventTrace) : List (String × DumpVal) :=
  [("trace_id", .jsonVal (.str t.trace_id)),
   ("session_id", .jsonVal (.str t.session_id)),
   ("timestamp", .datetimeVal t.timestamp),
   ("agent_name", .jsonVal (.str t.agent_name)),
   ("event_type", .jsonVal (.str t.event_type)),
   ("content", .jsonVal (.obj t.content)),
   ("metadata", .jsonVal (.obj t.metadata)),
   ("grounding_metadata", .jsonVal (optDictJson t.grounding_metadata)),
   ("actions", .jsonVal (optDictJson t.actions))]

/-- `session_snapshot.model_dump()` (trace_persistence.py line 155). -/
def snapshotModelDump (s : SessionStateSnapshot) : List (String × DumpVal) :=
  [("session_id", .jsonVal (.str s.session_id)),
   ("snapshot_id", .jsonVal (.str s.snapshot_id)),
   ("timestamp", .datetimeVal s.timestamp),
   ("state", .jsonVal (.obj s.state)),
   ("sources", .jsonVal (.obj s.sources)),
   ("url_to_short_id",
    .jsonVal (.obj (s.url_to_short_id.map fun kv => (kv.1, .str kv.2))))]

/-- What `json.dump`/`json.dumps` does with one dumped value: a datetime
object is not JSON-serializable and raises TypeError. -/
def jsonDumpVal : DumpVal → Except String Json
  | .jsonVal j => .ok j
  | .datetimeVal _ =>
    .error "TypeError: Object of type datetime is not JSON serializable"

/-- `json.dump(trace_data, ...)` over a model_dump dict: succeeds with the
JSON object only when every value is serializable, and raises TypeError
at the first datetime (trace_persistence.py lines 122 and 134). -/
def jsonDumpFields : List (String × DumpVal) → Except String (List (String × Json))
  | [] => .ok []
  | (k, v) :: t =>
    match jsonDumpVal v with
    | .error e => .error e
    | .ok j =>
      match jsonDumpFields t with
      | .error e => .error e
      | .ok rest => .ok ((k, j) :: rest)

/-- The datetime encoding the module declares in `Config.json_encoders`
(datetime → isoformat) applied to one dumped value.  This is the
serialization the module and its test intend; the as-written json.dump
never applies it (see jsonDumpVal). -/
def encodeDumpVal : DumpVal → Json
  | .jsonVal j => j
  | .datetimeVal d => .str d.iso

/-- The trace file content under the declared (intended) serialization:
the model_dump dict with the datetime rendered through the declared
isoformat encoder.  This is the content the repository's own round-trip
test assumes gets written; c3_save_serialization_bug shows the as-written
json.dump raises before producing it. -/
def traceToJson (t : AgentEventTrace) : Json :=
  .obj ((traceModelDump t).map fun kv => (kv.1, encodeDumpVal kv.2))

/-- The snapshot file content under the declared (intended) serialization. -/
def snapshotToJson (s : SessionStateSnapshot) : Json :=
  .obj ((snapshotModelDump s).map fun kv => (kv.1, encodeDumpVal kv.2))

/-- Read a required string field during pydantic validation. -/
def jsonGetStr (fields : List (String × Json)) (k : String) : Option String :=
  match fields.lookup k with
  | some (.str s) => some s
  | _ => none

/-- Read a required dict field during pydantic validation. -/
def jsonGetDict (fields : List (String × Json)) (k : String) :
    Option (List (String × Json)) :=
  match fields.lookup k with
  | some (.obj fs) => some fs
  | _ => none

/-- Read an Optional[Dict] field: null or a missing key give None, a dict
gives the dict, anything else fails validation. -/
def jsonGetOptDict (fields : List (String × Json)) (k : String) :
    Option (Option (List (String × Json))) :=
  match fields.lookup k with
  | none => some none
  | some .null => some none
  | some (.obj fs) => some (some fs)
  | some _ => none

/-- Read a Dict[str, str] field: every value must be a string. -/
def strFieldsOf : List (String × Json) → Option (List (String × String))
  | [] => some []
  | (k, .str v) :: t => (strFieldsOf t).map fun r => (k, v) :: r
  | _ => none

/-- pydantic validation `AgentEventTrace(**trace_data)` applied to the JSON
read back from a trace file; an isoformat timestamp string validates back
into the datetime it renders. -/
def traceOfJson : Json → Option AgentEventTrace
  | .obj fields => do
    let tid ← jsonGetStr fields "trace_id"
    let sid ← jsonGetStr fields "session_id"
    let ts ← jsonGetStr fields "timestamp"
    let an ← jsonGetStr fields "agent_name"
    let et ← jsonGetStr fields "event_type"
    let c ← jsonGetDict fields "content"
    let m ← jsonGetDict fields "metadata"
    let gm ← jsonGetOptDict fields "grounding_metadata"
    let ac ← jsonGetOptDict fields "actions"
    some ⟨tid, sid, ⟨ts⟩, an, et, c, m, gm, ac⟩
  | _ => none

/-- pydantic validation `SessionStateSnapshot(**snapshot_data)`. -/
def snapshotOfJson : Json → Option SessionStateSnapshot
  | .obj fields => do
    let sid ← jsonGetStr fields "session_id"
    let nid ← jsonGetStr fields "snapshot_id"
    let ts ← jsonGetStr fields "timestamp"
    let st ← jsonGetDict fields "state"
    let so ← jsonGetDict fields "sources"
    let um ← match fields.lookup "url_to_short_id" with
             | some (.obj fs) => strFieldsOf fs
             | _ => none
    some ⟨sid, nid, ⟨ts⟩, st, so, um⟩
  | _ => none

/-- save_event_trace (trace_persistence.py lines 107-143) under the
declared serialization intent (traceToJson): `ok` is whether the backend
write succeeds; any failure is logged and then re-raised (`raise` at line
143), modelled as `.error`.  On the local backend the file is written
into the storage directory, on GCS a blob is uploaded; a storage_type
that is neither hits no branch and the Python function returns None.
Returns the trace id and the new stores.  This is the success contract
the module's own round-trip test asserts; in the code as written the
json.dump step raises TypeError on the datetime timestamp before any
write, so the success branches are unreachable — that execution is
modelled separately by save_event_trace_as_written. -/
def save_event_trace (cfg : TracePersistenceConfig) (stores : Stores)
    (clock : Clock) (ok : Bool) (t : AgentEventTrace) :
    Except String (Option String × Stores) :=
  if cfg.storage_type = "local" then
    if ok then
      .ok (some t.trace_id,
        { stores with files := stores.files ++
            [⟨traceFileName clock t.trace_id "json", traceToJson t, clock.epoch⟩] })
    else .error "Failed to save event trace"
  else if cfg.storage_type = "gcs" then
    if ok then
      .ok (some t.trace_id,
        { stores with blobs := stores.blobs ++
            [⟨gcsBlobPath cfg clock t.trace_id "json", traceToJson t, clock.epoch⟩] })
    else .error "Failed to save event trace"
  else .ok (none, stores)

/-- save_session_snapshot (trace_persistence.py lines 145-181): same
contract with the file type "snapshot", under the declared serialization
intent; the as-written execution is save_session_snapshot_as_written. -/
def save_session_snapshot (cfg : TracePersistenceConfig) (stores : Stores)
    (clock : Clock) (ok : Bool) (s : SessionStateSnapshot) :
    Except String (Option String × Stores) :=
  if cfg.storage_type = "local" then
    if ok then
      .ok (some s.snapshot_id,
        { stores with files := stores.files ++
            [⟨traceFileName clock s.snapshot_id "snapshot", snapshotToJson s, clock.epoch⟩] })
    else .error "Failed to save session snapshot"
  else if cfg.storage_type = "gcs" then
    if ok then
      .ok (some s.snapshot_id,
        { stores with blobs := stores.blobs ++
            [⟨gcsBlobPath cfg clock s.snapshot_id "snapshot", snapshotToJson s, clock.epoch⟩] })
    else .error "Failed to save session snapshot"
  else .ok (none, stores)

/-- save_event_trace as the program actually executes it
(trace_persistence.py lines 116-143): inside each backend branch,
json.dump / json.dumps is applied to the model_dump dict, which still
holds the datetime timestamp, so it raises TypeError; the except block
logs and re-raises.  `ok` is whether the backend write would succeed once
serialization has; on the local backend the opened file is left behind
partially written, which the store model does not track.  No branch ever
returns the trace id. -/
def save_event_trace_as_written (cfg : TracePersistenceConfig)
    (stores : Stores) (clock : Clock) (ok : Bool) (t : AgentEventTrace) :
    Except String (Option String × Stores) :=
  if cfg.storage_type = "local" then
    match jsonDumpFields (traceModelDump t) with
    | .error e => .error e
    | .ok fields =>
      if ok then
        .ok (some t.trace_id,
          { stores with files := stores.files ++
              [⟨traceFileName clock t.trace_id "json", Json.obj fields,
                clock.epoch⟩] })
      else .error "Failed to save event trace"
  else if cfg.storage_type = "gcs" then
    match jsonDumpFields (traceModelDump t) with
    | .error e => .error e
    | .ok fields =>
      if ok then
        .ok (some t.trace_id,
          { stores with blobs := stores.blobs ++
              [⟨gcsBlobPath cfg clock t.trace_id "json", Json.obj fields,
                clock.epoch⟩] })
      else .error "Failed to save event trace"
  else .ok (none, stores)

/-- save_session_snapshot as the program actually executes it
(trace_persistence.py lines 154-181): the same TypeError on the datetime
timestamp, logged and re-raised, on every backend. -/
def save_session_snapshot_as_written (cfg : TracePersistenceConfig)
    (stores : Stores) (clock : Clock) (ok : Bool) (s : SessionStateSnapshot) :
    Except String (Option String × Stores) :=
  if cfg.storage_type = "local" then
    match jsonDumpFields (snapshotModelDump s) with
    | .error e => .error e
    | .ok fields =>
      if ok then
        .ok (some s.snapshot_id,
          { stores with files := stores.files ++
              [⟨traceFileName clock s.snapshot_id "snapshot", Json.obj fields,
                clock.epoch⟩] })
      else .error "Failed to save session snapshot"
  else if cfg.storage_type = "gcs" then
    match jsonDumpFields (snapshotModelDump s) with
    | .error e => .error e
    | .ok fields =>
      if ok then
        .ok (some s.snapshot_id,
          { stores with blobs := stores.blobs ++
              [⟨gcsBlobPath cfg clock s.snapshot_id "snapshot",
                Json.obj fields, clock.epoch⟩] })
      else .error "Failed to save session snapshot"
  else .ok (none, stores)

/-- load_event_trace (trace_persistence.py lines 183-216): scan the
backend for the first object whose name matches the naming convention
(`*.json` containing the id) and validate its content; any failure on the
way, a parse error included, is caught and gives None. -/
def load_event_trace (cfg : TracePersistenceConfig) (stores : Stores)
    (trace_id : String) : Option AgentEventTrace :=
  if cfg.storage_type = "local" then
    match stores.files.find?
        (fun f => strEndsWith f.name ".json" && strContains f.name trace_id) with
    | some f => traceOfJson f.content
    | none => none
  else if cfg.storage_type = "gcs" then
    match (stores.blobs.filter (fun b => strStartsWith b.name cfg.gcs_prefix_dir)).find?
        (fun b => strContains b.name trace_id && strEndsWith b.name ".json") with
    | some b => traceOfJson b.content
    | none => none
  else none

/-- load_session_snapshot (trace_persistence.py lines 218-251). -/
def load_session_snapshot (cfg : TracePersistenceConfig) (stores : Stores)
    (snapshot_id : String) : Option SessionStateSnapshot :=
  if cfg.storage_type = "local" then
    match stores.files.find?
        (fun f => strEndsWith f.name ".snapshot" && strContains f.name snapshot_id) with
    | some f => snapshotOfJson f.content
    | none => none
  else if cfg.storage_type = "gcs" then
    match (stores.blobs.filter (fun b => strStartsWith b.name cfg.gcs_prefix_dir)).find?
        (fun b => strContains b.name snapshot_id && strEndsWith b.name ".snapshot") with
    | some b => snapshotOfJson b.content
    | none => none
  else none

/-- cleanup_old_traces (trace_persistence.py lines 317-350): on any
non-local backend log a warning and return 0; on the local backend delete
every `*.json` file whose mtime is strictly below `now - max_age_days
days` and return the number deleted.  The result is (deleted count, new
stores, warnings logged). -/
def cleanup_old_traces (cfg : TracePersistenceConfig) (stores : Stores)
    (now : Int) (max_age_days : Int) : Nat × Stores × List String :=
  if cfg.storage_type ≠ "local" then
    (0, stores, ["Cleanup only supported for local storage"])
  else
    let cutoff := now - max_age_days * 24 * 60 * 60
    let doomed := fun f => strEndsWith f.name ".json" && decide (f.mtime < cutoff)
    ((stores.files.filter doomed).length,
     { stores with files := stores.files.filter (fun f => !doomed f) },
     [])

/-! ### Snapshot trigger policy (deep-search/app/agent.py line 205) -/

/-- `if len(session.events) % 5 == 0 or len(session.events) == 1` in
trace_persistence_callback: whether the callback writes a session-state
snapshot when the session holds `eventCount` events. -/
def snapshotTrigger (eventCount : Nat) : Bool :=
  eventCount % 5 == 0 || eventCount == 1

/-- The event counts at which the callback snapshots over a session that
grows to `totalEvents` events, the callback observing every count
1, 2, ..., totalEvents. -/
def snapshotCounts (totalEvents : Nat) : List Nat :=
  ((List.range totalEvents).map (· + 1)).filter snapshotTrigger

/-! ### Artifact writer (deep-patent-agent-search/app/domain_agents/base.py) -/

/-- A Python object held in domain-agent session state, as the artifact
writer callbacks see it: a JSON-serializable value, a pydantic model
carrying model_dump, an object exposing a markdown attribute, or any
other object.  `sform` is its `str(...)` form. -/
inductive StateVal where
  | jsonVal (j : Json) (sform : String)
  | modelVal (dump : Json) (sform : String)
  | mdVal (markdown : String) (sform : String)
  | rawVal (sform : String)

/-- Session state of a domain-agent pipeline. -/
def DomainState : Type := List (String × StateVal)

/-- `ctx.state.get(state_key)` in base.py. -/
def domainStateGet (st : DomainState) (k : String) : Option StateVal :=
  List.lookup k st

/-- What `json.dumps` serializes for write_state_json (base.py lines
41-43): a model is unwrapped through model_dump first; an object that is
not JSON-serializable makes json.dumps raise (caught by the callback). -/
def serializeForJson : StateVal → Option Json
  | .jsonVal j _ => some j
  | .modelVal dump _ => some dump
  | .mdVal _ _ => none
  | .rawVal _ => none

/-- What write_state_text writes (base.py lines 59-64): the markdown
attribute when the value carries one, otherwise `str(data)`. -/
def textForm : StateVal → String
  | .jsonVal _ sform => sform
  | .modelVal _ sform => sform
  | .mdVal markdown _ => markdown
  | .rawVal sform => sform

/-- Content of one artifact file. -/
inductive ArtifactData where
  | jsonData (j : Json)
  | textData (s : String)

/-- The artifact output directory: path → content. -/
def ArtifactFS : Type := List (String × ArtifactData)

/-- ARTIFACT_ROOT (base.py line 22). -/
def ARTIFACT_ROOT : String := "05_artifacts"

/-- The callback returned by write_state_json (base.py lines 29-48).
`ok` is whether directory creation and the file write succeed; every
failure inside the try block is logged and swallowed.  Returns the
(unchanged) session state, the artifact directory, and whether an
exception escaped the callback — by construction never. -/
def write_state_json (state_key filename : String) (st : DomainState)
    (fs : ArtifactFS) (ok : Bool) : DomainState × ArtifactFS × Bool :=
  match domainStateGet st state_key with
  | none => (st, fs, false)
  | some data =>
    let path := ARTIFACT_ROOT ++ "/" ++ filename
    match serializeForJson data with
    | none => (st, fs, false)
    | some j =>
      if ok then (st, (path, .jsonData j) :: fs, false)
      else (st, fs, false)

/-- The callback returned by write_state_text (base.py lines 51-69). -/
def write_state_text (state_key filename : String) (st : DomainState)
    (fs : ArtifactFS) (ok : Bool) : DomainState × ArtifactFS × Bool :=
  match domainStateGet st state_key with
  | none => (st, fs, false)
  | some data =>
    let path := ARTIFACT_ROOT ++ "/" ++ filename
    if ok then (st, (path, .textData (textForm data)) :: fs, false)
    else (st, fs, false)

/-! ### Phase router (scripts/phase_router.py) -/

/-- PHASE_TO_AGENT (phase_router.py lines 21-34). -/
def PHASE_TO_AGENT : List (String × String) :=
  [("p7a", "prior_art"), ("p7b", "risk"), ("p7c", "regulatory_cmc"),
   ("p7d", "commercial"), ("p7e", "mechanistic"),
   ("risk", "risk"), ("commercial", "commercial"), ("reg", "regulatory_cmc"),
   ("unmet", "unmet_need"), ("safety", "safety"), ("mech", "mechanistic")]

/-- AGENT_TO_APPNAME (phase_router.py lines 37-45). -/
def AGENT_TO_APPNAME : List (String × String) :=
  [("prior_art", "app"), ("commercial", "commercial_agent"),
   ("risk", "risk_agent"), ("regulatory_cmc", "regulatory_cmc_agent"),
   ("unmet_need", "unmet_need_agent"), ("safety", "safety_agent"),
   ("mechanistic", "mechanistic_agent")]

/-- Python `a or b` on optional strings: a missing or empty string falls
through to the second operand. -/
def pyOrStr : Option String → Option String → Option String
  | some s, b => if s.isEmpty then b else some s
  | none, b => b

/-- Python `str.lower()` (ASCII). -/
def pyLower (s : String) : String := ⟨s.data.map Char.toLower⟩

/-- Python whitespace as `str.strip()` sees it. -/
def isWsChar (c : Char) : Bool :=
  c == ' ' || c == '\t' || c == '\n' || c == '\r' || c == '\x0b' || c == '\x0c'

/-- Python `str.strip()`. -/
def pyStrip (s : String) : String :=
  ⟨((s.data.dropWhile isWsChar).reverse.dropWhile isWsChar).reverse⟩

/-- `agent = (args.agent or PHASE_TO_AGENT.get(phase_key) or
"prior_art").strip()` with `phase_key = args.phase.lower()`
(phase_router.py lines 109-110). -/
def resolveAgent (override : Option String) (phase : String) : String :=
  pyStrip ((pyOrStr override
      (pyOrStr (PHASE_TO_AGENT.lookup (pyLower phase))
        (some "prior_art"))).getD "prior_art")

/-- `app_name = AGENT_TO_APPNAME.get(agent, "app")` (phase_router.py
line 183). -/
def resolveAppName (agent : String) : String :=
  (AGENT_TO_APPNAME.lookup agent).getD "app"

/-- The lines main prints while resolving the agent (phase_router.py line
117): the same single informational line whether or not the phase was
found in the table. -/
def routerLogs (override : Option String) (phase : String) : List String :=
  ["[phase-router] ADK_AGENT_NAME=" ++ resolveAgent override phase ++
   " (phase=" ++ phase ++ ")"]

/-- Is a router output line a warning?  The script marks its warnings with
the literal token WARNING (phase_router.py lines 174 and 180). -/
def isWarningLine (line : String) : Bool :=
  strContains line "WARNING"

/-! ### Feedback schema (deep-search/app/agent.py lines 46-58) -/

/-- SearchQuery (agent.py lines 38-43). -/
structure SearchQuery where
  search_query : String

/-- Feedback (agent.py lines 46-58): grade is Literal["pass", "fail"],
comment free text, follow_up_queries an optional list defaulting to None.
No validator relates follow_up_queries to grade. -/
structure Feedback where
  grade : String
  comment : String
  follow_up_queries : Option (List SearchQuery) := none

/-- pydantic validation of a Feedback payload: the only constraint the
schema enforces is the Literal type of grade. -/
def feedbackValidate (grade comment : String)
    (follow_up_queries : Option (List SearchQuery)) : Option Feedback :=
  if grade = "pass" ∨ grade = "fail" then
    some ⟨grade, comment, follow_up_queries⟩
  else none

/-! ### list_traces (trace_persistence.py lines 253-315) -/

/-- One entry of the list_traces result: the five metadata fields read
with `.get` (None when absent) plus the backend location. -/
structure TraceListEntry where
  trace_id : Option Json
  session_id : Option Json
  timestamp : Option Json
  agent_name : Option Json
  event_type : Option Json
  location : String

/-- Byte-wise lexicographic order on strings, as Python compares file
names. -/
def charListLt : List Char → List Char → Bool
  | [], [] => false
  | [], _ :: _ => true
  | _ :: _, [] => false
  | a :: as, b :: bs =>
    decide (a.toNat < b.toNat) || (a == b && charListLt as bs)

/-- `a < b` on file names. -/
def strLtB (a b : String) : Bool := charListLt a.data b.data

/-- Insert into a list sorted descending by name. -/
def insertByNameDesc (f : TraceFile) : List TraceFile → List TraceFile
  | [] => [f]
  | g :: t => if strLtB f.name g.name then g :: insertByNameDesc f t
              else f :: g :: t

/-- `sorted(storage_path.glob("*.json"), reverse=True)` (line 268):
newest first, since names start with the timestamp. -/
def sortByNameDesc : List TraceFile → List TraceFile
  | [] => []
  | f :: t => insertByNameDesc f (sortByNameDesc t)

/-- Parse one trace file into a list entry, applying the session filter
(lines 271-283): a non-dict content raises at `.get` and is skipped by
the per-file handler; a dict failing the session filter adds nothing. -/
def localEntryOf (cfg : TracePersistenceConfig) (session_id : Option String)
    (f : TraceFile) : Option TraceListEntry :=
  match f.content with
  | .obj fields =>
    let keep := match session_id with
      | none => true
      | some sid =>
        match fields.lookup "session_id" with
        | some (.str s) => s == sid
        | _ => false
    if keep then
      some ⟨fields.lookup "trace_id", fields.lookup "session_id",
            fields.lookup "timestamp", fields.lookup "agent_name",
            fields.lookup "event_type",
            cfg.local_storage_path ++ "/" ++ f.name⟩
    else none
  | _ => none

/-- Parse one GCS blob into a list entry (lines 296-308): only `*.json`
blobs are considered; the location is the gs:// path. -/
def gcsEntryOf (cfg : TracePersistenceConfig) (session_id : Option String)
    (b : TraceFile) : Option TraceListEntry :=
  if strEndsWith b.name ".json" then
    match b.content with
    | .obj fields =>
      let keep := match session_id with
        | none => true
        | some sid =>
          match fields.lookup "session_id" with
          | some (.str s) => s == sid
          | _ => false
      if keep then
        some ⟨fields.lookup "trace_id", fields.lookup "session_id",
              fields.lookup "timestamp", fields.lookup "agent_name",
              fields.lookup "event_type",
              "gs://" ++ (cfg.gcs_bucket_name.getD "") ++ "/" ++ b.name⟩
      else none
    | _ => none
  else none

/-- The GCS branch loop (lines 292-308): walk the blobs, stopping as soon
as the accumulated result reaches the limit, appending each blob that
parses and passes the session filter. -/
def gcsListLoop (f : TraceFile → Option TraceListEntry) :
    List TraceFile → List TraceListEntry → Nat → List TraceListEntry
  | [], acc, _ => acc
  | b :: rest, acc, limit =>
    if limit ≤ acc.length then acc
    else
      match f b with
      | some e => gcsListLoop f rest (acc ++ [e]) limit
      | none => gcsListLoop f rest acc limit

/-- list_traces (trace_persistence.py lines 253-315).  Local backend:
glob `*.json`, sort newest first, cut to the newest `limit` files, then
parse and filter by session id.  GCS backend: walk the blobs under the
configured object prefix, counting only entries that already passed the
session filter against the limit. -/
def list_traces (cfg : TracePersistenceConfig) (stores : Stores)
    (session_id : Option String) (limit : Nat) : List TraceListEntry :=
  if cfg.storage_type = "local" then
    ((sortByNameDesc (stores.files.filter
        (fun f => strEndsWith f.name ".json"))).take limit).filterMap
      (localEntryOf cfg session_id)
  else if cfg.storage_type = "gcs" then
    gcsListLoop (gcsEntryOf cfg session_id)
      (stores.blobs.filter (fun b => strStartsWith b.name cfg.gcs_prefix_dir))
      [] limit
  else []

/-! ### Concrete fixtures used by witnesses and counterexamples -/

/-- The state value an always-failing evaluator writes. -/
def failEvalFields : List (String × Json) :=
  [("grade", Json.str "fail"), ("comment", Json.str "gaps remain")]

/-- Loop callables whose evaluator always grades "fail". -/
def cFail : LoopCallables :=
  ⟨fun _ => [("research_evaluation", Json.obj failEvalFields)], fun st => st⟩

/-- A fixed current time. -/
def demoClock : Clock := ⟨"20250101_000000", 1735689600⟩

/-- The default configuration: local backend. -/
def localCfg : TracePersistenceConfig := {}

/-- A GCS configuration. -/
def gcsCfg : TracePersistenceConfig :=
  { storage_type := "gcs", gcs_bucket_name := some "bkt" }

/-- A concrete event trace. -/
def demoTrace : AgentEventTrace :=
  { trace_id := "tr-1", session_id := "sess-1",
    timestamp := ⟨"2025-01-01T00:00:00"⟩, agent_name := "section_researcher",
    event_type := "agent_event", content := [("text", Json.str "findings")],
    metadata := [("event_count", Json.num 1)] }

/-- A concrete session snapshot. -/
def demoSnapshot : SessionStateSnapshot :=
  { session_id := "sess-1", snapshot_id := "sn-1",
    timestamp := ⟨"2025-01-01T00:00:00"⟩,
    state := [("section_research_findings", Json.str "text")],
    sources := [], url_to_short_id := [("https://e.example", "src-1")] }

/-- An old trace file whose session matches the filter below. -/
def oldMatchFile : TraceFile :=
  ⟨"20250101_000000_bbb.json",
   Json.obj [("trace_id", Json.str "bbb"), ("session_id", Json.str "s1")], 0⟩

/-- A newer trace file from a different session. -/
def newOtherFile : TraceFile :=
  ⟨"20250102_000000_aaa.json",
   Json.obj [("trace_id", Json.str "aaa"), ("session_id", Json.str "s2")], 0⟩

/-- A local store holding the two files above. -/
def demoLocalStores : Stores := ⟨[oldMatchFile, newOtherFile], []⟩

/-- The same two records as GCS blobs under the configured object prefix,
listed in ascending (oldest-first) name order as GCS returns them. -/
def oldMatchBlob : TraceFile :=
  ⟨"traces/20250101_000000_bbb.json",
   Json.obj [("trace_id", Json.str "bbb"), ("session_id", Json.str "s1")], 0⟩

/-- The newer, non-matching blob. -/
def newOtherBlob : TraceFile :=
  ⟨"traces/20250102_000000_aaa.json",
   Json.obj [("trace_id", Json.str "aaa"), ("session_id", Json.str "s2")], 0⟩

/-- A GCS store holding the two blobs above. -/
def demoGcsStores : Stores := ⟨[], [oldMatchBlob, newOtherBlob]⟩

/-! ### Helper lemmas -/

/-- A successful lookup means the association list is not empty. -/
theorem lookup_ne_nil {α β : Type} [BEq α] {l : List (α × β)} {k : α} {v : β}
    (h : List.lookup k l = some v) : l.isEmpty = false := by
  cases l with
  | nil => simp [List.lookup] at h
  | cons hd tl => rfl

/-- A character list starts every list it is appended in front of. -/
theorem prefixAtB_append_self (l r : List Char) : prefixAtB l (l ++ r) = true := by
  induction l with
  | nil => rfl
  | cons a as ih => simp [prefixAtB, ih]

/-- A needle occurs at the very front of itself plus a tail. -/
theorem containsSub_self_append (mid post : List Char) :
    containsSub mid (mid ++ post) = true := by
  cases mid with
  | nil =>
    cases post with
    | nil => rfl
    | cons c cs => simp [containsSub, prefixAtB]
  | cons c cs =>
    have h2 : prefixAtB (c :: cs) (c :: (cs ++ post)) = true :=
      prefixAtB_append_self (c :: cs) post
    show (prefixAtB (c :: cs) (c :: (cs ++ post)) ||
      containsSub (c :: cs) (cs ++ post)) = true
    rw [h2, Bool.true_or]

/-- A needle occurs in any haystack that carries it as a middle segment. -/
theorem containsSub_middle (pre mid post : List Char) :
    containsSub mid (pre ++ (mid ++ post)) = true := by
  induction pre with
  | nil => exact containsSub_self_append mid post
  | cons c cs ih =>
    show (prefixAtB mid (c :: (cs ++ (mid ++ post))) ||
      containsSub mid (cs ++ (mid ++ post))) = true
    rw [ih, Bool.or_true]

/-- Substring test through a decomposition of the haystack. -/
theorem strContains_of_split (hay needle : String) (pre post : List Char)
    (h : hay.data = pre ++ (needle.data ++ post)) :
    strContains hay needle = true := by
  unfold strContains
  rw [h]
  exact containsSub_middle pre needle.data post

/-- Suffix test through a decomposition of the haystack. -/
theorem strEndsWith_of_split (hay suffix : String) (pre : List Char)
    (h : hay.data = pre ++ suffix.data) :
    strEndsWith hay suffix = true := by
  unfold strEndsWith
  rw [h, List.reverse_append]
  exact prefixAtB_append_self _ _

/-- The generated trace file name contains the trace id. -/
theorem traceFileName_contains (c : Clock) (id ft : String) :
    strContains (traceFileName c id ft) id = true := by
  apply strContains_of_split _ _ (c.stamp.data ++ "_".data) (".".data ++ ft.data)
  simp [traceFileName, String.data_append, List.append_assoc]

/-- The generated trace file name for file type "json" ends in ".json". -/
theorem traceFileName_json_suffix (c : Clock) (id : String) :
    strEndsWith (traceFileName c id "json") ".json" = true := by
  apply strEndsWith_of_split _ _ (c.stamp.data ++ "_".data ++ id.data)
  simp [traceFileName, String.data_append, List.append_assoc]

/-- The generated file name for file type "snapshot" ends in ".snapshot". -/
theorem traceFileName_snapshot_suffix (c : Clock) (id : String) :
    strEndsWith (traceFileName c id "snapshot") ".snapshot" = true := by
  apply strEndsWith_of_split _ _ (c.stamp.data ++ "_".data ++ id.data)
  simp [traceFileName, String.data_append, List.append_assoc]

/-- Reading back the serialized form of an event trace validates to the
original record, field for field. -/
theorem traceOfJson_toJson (t : AgentEventTrace) :
    traceOfJson (traceToJson t) = some t := by
  rcases t with ⟨tid, sid, ts, an, et, c, m, gm, ac⟩
  cases gm <;> cases ac <;> rfl

/-- String-valued dict fields round-trip through serialization. -/
theorem strFieldsOf_map (l : List (String × String)) :
    strFieldsOf (l.map fun kv => (kv.1, Json.str kv.2)) = some l := by
  induction l with
  | nil => rfl
  | cons hd tl ih => simp [strFieldsOf, ih]

/-- Reading back the serialized form of a snapshot validates to the
original record, field for field. -/
theorem snapshotOfJson_toJson (s : SessionStateSnapshot) :
    snapshotOfJson (snapshotToJson s) = some s := by
  rcases s with ⟨sid, nid, ts, st, so, um⟩
  have h : snapshotOfJson (snapshotToJson ⟨sid, nid, ts, st, so, um⟩) =
      (strFieldsOf (um.map fun kv => (kv.1, Json.str kv.2))).bind
        (fun um2 => some (⟨sid, nid, ts, st, so, um2⟩ : SessionStateSnapshot)) := rfl
  rw [h, strFieldsOf_map]
  rfl

/-! ### Claim theorems -/

/-- C4: the trace-persistence callback writes a session-state snapshot
exactly when the event count is 1 or a multiple of 5 and at no other
count; over a 16-event session, observed at every count 1..16, it
snapshots exactly 4 times, at counts 1, 5, 10 and 15. -/
theorem c4_snapshot_trigger_policy :
    (∀ n : Nat, snapshotTrigger n = true ↔ (n = 1 ∨ n % 5 = 0)) ∧
    snapshotCounts 16 = [1, 5, 10, 15] ∧ (snapshotCounts 16).length = 4 := by
  refine ⟨fun n => ?_, by decide, by decide⟩
  simp [snapshotTrigger]
  exact Or.comm

/-- C8 counterexample: resolving the unknown phase token "zz" does fall
back to the default pipeline, but the router emits no warning line at
all — its only output during resolution is the usual informational line —
refuting the claim that an unrecognized phase logs a warning. -/
theorem c8_router_counterexample :
    PHASE_TO_AGENT.lookup (pyLower "zz") = none ∧
    resolveAgent none "zz" = "prior_art" ∧
    (routerLogs none "zz").all (fun l => !(isWarningLine l)) = true :=
  ⟨rfl, rfl, rfl⟩

/-- C8 (amended): with no override, the case-insensitive phase token
"p7b" resolves to the "risk" pipeline and to the application name
"risk_agent"; a phase token absent from the phase-to-agent table resolves
to the default "prior_art" pipeline without failing (though without any
warning log); an agent absent from the agent-to-appname table falls back
to the generic application name "app". -/
theorem c8_router_resolution :
    (resolveAgent none "p7b" = "risk" ∧ resolveAgent none "P7B" = "risk" ∧
      resolveAppName (resolveAgent none "p7b") = "risk_agent") ∧
    (∀ phase, PHASE_TO_AGENT.lookup (pyLower phase) = none →
      resolveAgent none phase = "prior_art") ∧
    (∀ agent, AGENT_TO_APPNAME.lookup agent = none →
      resolveAppName agent = "app") := by
  refine ⟨⟨rfl, rfl, rfl⟩, fun phase h => ?_, fun agent h => ?_⟩
  · unfold resolveAgent
    rw [h]
    rfl
  · unfold resolveAppName
    rw [h]
    rfl

/-- C9 counterexample: the Feedback schema accepts a value whose grade is
"pass" while its follow-up-queries list is present and non-empty, so the
claimed invariant does not hold of every value the system accepts. -/
theorem c9_feedback_counterexample :
    feedbackValidate "pass" "looks good" (some [⟨"one more query"⟩]) =
      some ⟨"pass", "looks good", some [⟨"one more query"⟩]⟩ ∧
    (some [(⟨"one more query"⟩ : SearchQuery)] ≠
      (none : Option (List SearchQuery))) ∧
    ((some [(⟨"one more query"⟩ : SearchQuery)]) ≠
      some ([] : List SearchQuery)) := by
  refine ⟨rfl, by simp, by simp⟩

/-- C9 (amended): the Evaluation Result type enforces only that the grade
is "pass" or "fail"; the relation between grade and the
follow-up-queries list is stated in the field description but not
validated, so grade and follow_up_queries vary independently in accepted
values. -/
theorem c9_feedback_schema :
    (∀ g c q, (feedbackValidate g c q).isSome = true ↔
      (g = "pass" ∨ g = "fail")) ∧
    (∀ g c q fb, feedbackValidate g c q = some fb →
      fb.grade = g ∧ fb.comment = c ∧ fb.follow_up_queries = q) := by
  constructor
  · intro g c q
    unfold feedbackValidate
    split <;> simp_all
  · intro g c q fb h
    unfold feedbackValidate at h
    split at h
    · cases h
      exact ⟨rfl, rfl, rfl⟩
    · cases h

/-- C5: the artifact-writer callbacks never raise (their try blocks
swallow every failure), they never touch the session state, a missing
state key produces no file, and a failed serialization or write leaves
the artifact directory unchanged. -/
theorem c5_artifact_writer_safe (key filename : String) (st : DomainState)
    (fs : ArtifactFS) (ok : Bool) :
    (write_state_json key filename st fs ok).1 = st ∧
    (write_state_json key filename st fs ok).2.2 = false ∧
    (write_state_text key filename st fs ok).1 = st ∧
    (write_state_text key filename st fs ok).2.2 = false ∧
    (domainStateGet st key = none →
      (write_state_json key filename st fs ok).2.1 = fs ∧
      (write_state_text key filename st fs ok).2.1 = fs) ∧
    (ok = false →
      (write_state_json key filename st fs ok).2.1 = fs ∧
      (write_state_text key filename st fs ok).2.1 = fs) := by
  rcases h : domainStateGet st key with _ | v
  · simp [write_state_json, write_state_text, h]
  · rcases v <;> rcases ok <;>
      simp [write_state_json, write_state_text, h, serializeForJson]

/-- C6: on either real backend, a serialization or storage failure inside
save_event_trace or save_session_snapshot is propagated to the caller as
an exception, and a successful save returns the written record's id. -/
theorem c6_trace_saves_propagate (cfg : TracePersistenceConfig)
    (stores : Stores) (clock : Clock) (t : AgentEventTrace)
    (s : SessionStateSnapshot)
    (hback : cfg.storage_type = "local" ∨ cfg.storage_type = "gcs") :
    (∃ st1, save_event_trace cfg stores clock true t =
      .ok (some t.trace_id, st1)) ∧
    (∃ e1, save_event_trace cfg stores clock false t = .error e1) ∧
    (∃ st2, save_session_snapshot cfg stores clock true s =
      .ok (some s.snapshot_id, st2)) ∧
    (∃ e2, save_session_snapshot cfg stores clock false s = .error e2) := by
  rcases hback with h | h <;>
    simp [save_event_trace, save_session_snapshot, h]

/-- C6 witness: the save operations evaluated on the local backend at a
concrete trace and snapshot. -/
theorem c6_trace_saves_propagate_witness :
    (localCfg.storage_type = "local" ∨ localCfg.storage_type = "gcs") ∧
    ((∃ st1, save_event_trace localCfg ⟨[], []⟩ demoClock true demoTrace =
      .ok (some demoTrace.trace_id, st1)) ∧
    (∃ e1, save_event_trace localCfg ⟨[], []⟩ demoClock false demoTrace =
      .error e1) ∧
    (∃ st2, save_session_snapshot localCfg ⟨[], []⟩ demoClock true demoSnapshot =
      .ok (some demoSnapshot.snapshot_id, st2)) ∧
    (∃ e2, save_session_snapshot localCfg ⟨[], []⟩ demoClock false demoSnapshot =
      .error e2)) :=
  ⟨Or.inl rfl,
   c6_trace_saves_propagate localCfg ⟨[], []⟩ demoClock demoTrace demoSnapshot
     (Or.inl rfl)⟩

/-- C7: cleanup_old_traces on a non-local (GCS) backend deletes nothing,
logs the warning and returns 0 whatever the age bound; on the local
backend with max_age_days = 0 it deletes exactly the existing `*.json`
trace files (all of which have modification times strictly before now)
and returns their count. -/
theorem c7_cleanup_retention (cfgG cfgL : TracePersistenceConfig)
    (storesG storesL : Stores) (now d : Int)
    (hg : cfgG.storage_type = "gcs")
    (hl : cfgL.storage_type = "local")
    (hmt : ∀ f ∈ storesL.files, f.mtime < now) :
    cleanup_old_traces cfgG storesG now d =
      (0, storesG, ["Cleanup only supported for local storage"]) ∧
    cleanup_old_traces cfgL storesL now 0 =
      ((storesL.files.filter (fun f => strEndsWith f.name ".json")).length,
       { storesL with files :=
          storesL.files.filter (fun f => !(strEndsWith f.name ".json")) },
       []) := by
  constructor
  · simp [cleanup_old_traces, hg]
  · have hc : ∀ f ∈ storesL.files,
        (strEndsWith f.name ".json" && decide (f.mtime < now - 0 * 24 * 60 * 60)) =
        strEndsWith f.name ".json" := by
      intro f hf
      have hlt : f.mtime < now - 0 * 24 * 60 * 60 := by
        have := hmt f hf
        omega
      rw [decide_eq_true hlt, Bool.and_true]
    have hneg : ∀ f ∈ storesL.files,
        (!(strEndsWith f.name ".json" && decide (f.mtime < now - 0 * 24 * 60 * 60))) =
        (!(strEndsWith f.name ".json")) := by
      intro f hf
      rw [hc f hf]
    simp only [cleanup_old_traces, hl, ne_eq, not_true_eq_false, if_false,
      ite_false]
    rw [List.filter_congr hc, List.filter_congr hneg]

/-- C7 witness: cleanup evaluated on a concrete GCS store and on a
concrete local store of two json trace files written in the past. -/
theorem c7_cleanup_retention_witness :
    (gcsCfg.storage_type = "gcs" ∧ localCfg.storage_type = "local" ∧
      (∀ f ∈ demoLocalStores.files, f.mtime < demoClock.epoch)) ∧
    (cleanup_old_traces gcsCfg demoGcsStores demoClock.epoch 7 =
      (0, demoGcsStores, ["Cleanup only supported for local storage"]) ∧
    cleanup_old_traces localCfg demoLocalStores demoClock.epoch 0 =
      ((demoLocalStores.files.filter (fun f => strEndsWith f.name ".json")).length,
       { demoLocalStores with files :=
          demoLocalStores.files.filter (fun f => !(strEndsWith f.name ".json")) },
       [])) :=
  ⟨⟨rfl, rfl, by decide⟩,
   c7_cleanup_retention gcsCfg localCfg demoGcsStores demoLocalStores
     demoClock.epoch 7 rfl rfl (by decide)⟩


/-- C1 counterexample: a session state whose evaluation value is a truthy
non-dict (an unparseable evaluation stored as a raw string) makes the
escalation check raise AttributeError at `.get`, refuting the claim that
the check never throws for unparseable values. -/
theorem c1_escalation_counterexample :
    escalationCheck "escalation_checker"
      [("research_evaluation", Json.str "unparseable output")] =
    Except.error "AttributeError: object has no attribute get" := rfl

/-- C1 (amended): the check escalates exactly when the stored evaluation
value is a truthy mapping whose grade equals "pass"; a missing value, a
falsy value of any shape, and a mapping whose grade is anything but
"pass" each yield a plain event without throwing; a truthy non-mapping
value (which the schema-bound evaluator never stores) raises
AttributeError at `.get`; and an escalating iteration terminates the loop
immediately: the remaining run consists of that evaluation and the check
only, with no research step and no later iteration. -/
theorem c1_escalation_check :
    (∀ name state,
      (escalationCheck name state = Except.ok (CheckEvent.escalate name) ↔
        ∃ fields,
          stateGet state "research_evaluation" = some (Json.obj fields) ∧
          (Json.obj fields).truthy = true ∧
          Json.dictGet fields "grade" = some (Json.str "pass")) ∧
      (stateGet state "research_evaluation" = none →
        escalationCheck name state = Except.ok (CheckEvent.plain name)) ∧
      (∀ v, stateGet state "research_evaluation" = some v →
        v.truthy = false →
        escalationCheck name state = Except.ok (CheckEvent.plain name)) ∧
      (∀ fields, stateGet state "research_evaluation" = some (Json.obj fields) →
        Json.dictGet fields "grade" ≠ some (Json.str "pass") →
        escalationCheck name state = Except.ok (CheckEvent.plain name)) ∧
      (∀ v, stateGet state "research_evaluation" = some v →
        v.truthy = true → (∀ fields, v ≠ Json.obj fields) →
        escalationCheck name state =
          Except.error "AttributeError: object has no attribute get")) ∧
    (∀ c n st st1 tags, runIteration c st = Except.ok (st1, true, tags) →
      runLoop c (n + 1) st = Except.ok (st1, tags) ∧
      tags = [StepTag.evalStep, StepTag.checkStep]) := by
  constructor
  · intro name state
    have hplainNone : stateGet state "research_evaluation" = none →
        escalationCheck name state = Except.ok (CheckEvent.plain name) := by
      intro h
      simp [escalationCheck, h]
    have hplainFalsy : ∀ v, stateGet state "research_evaluation" = some v →
        v.truthy = false →
        escalationCheck name state = Except.ok (CheckEvent.plain name) := by
      intro v h ht
      simp [escalationCheck, h, ht]
    have herr : ∀ v, stateGet state "research_evaluation" = some v →
        v.truthy = true → (∀ fields, v ≠ Json.obj fields) →
        escalationCheck name state =
          Except.error "AttributeError: object has no attribute get" := by
      intro v h ht hno
      cases v with
      | obj fl => exact absurd rfl (hno fl)
      | null => simp [Json.truthy] at ht
      | bool b => simp [escalationCheck, h, ht]
      | num nn => simp [escalationCheck, h, ht]
      | str sg => simp [escalationCheck, h, ht]
      | arr el => simp [escalationCheck, h, ht]
    have hplainGrade : ∀ fields,
        stateGet state "research_evaluation" = some (Json.obj fields) →
        Json.dictGet fields "grade" ≠ some (Json.str "pass") →
        escalationCheck name state = Except.ok (CheckEvent.plain name) := by
      intro fields h hg
      rcases ht : (Json.obj fields).truthy with _ | _
      · exact hplainFalsy _ h ht
      · rcases hgv : Json.dictGet fields "grade" with _ | g
        · simp [escalationCheck, h, ht, hgv]
        · cases g with
          | str sg =>
            have hs : ¬ sg = "pass" := by
              intro he
              subst he
              exact hg hgv
            simp [escalationCheck, h, ht, hgv, hs]
          | null => simp [escalationCheck, h, ht, hgv]
          | bool b => simp [escalationCheck, h, ht, hgv]
          | num nn => simp [escalationCheck, h, ht, hgv]
          | arr el => simp [escalationCheck, h, ht, hgv]
          | obj fl => simp [escalationCheck, h, ht, hgv]
    have hesc : ∀ fields,
        stateGet state "research_evaluation" = some (Json.obj fields) →
        (Json.obj fields).truthy = true →
        Json.dictGet fields "grade" = some (Json.str "pass") →
        escalationCheck name state = Except.ok (CheckEvent.escalate name) := by
      intro fields h ht hg
      simp [escalationCheck, h, ht, hg]
    refine ⟨⟨?_, ?_⟩, hplainNone, hplainFalsy, hplainGrade, herr⟩
    · intro hE
      rcases hst : stateGet state "research_evaluation" with _ | v
      · rw [hplainNone hst] at hE
        simp at hE
      · rcases ht : v.truthy with _ | _
        · rw [hplainFalsy v hst ht] at hE
          simp at hE
        · cases v with
          | obj fields =>
            by_cases hg : Json.dictGet fields "grade" = some (Json.str "pass")
            · exact ⟨fields, rfl, ht, hg⟩
            · rw [hplainGrade fields hst hg] at hE
              simp at hE
          | null =>
            rw [herr _ hst ht (fun f he => Json.noConfusion he)] at hE
            simp at hE
          | bool b =>
            rw [herr _ hst ht (fun f he => Json.noConfusion he)] at hE
            simp at hE
          | num nn =>
            rw [herr _ hst ht (fun f he => Json.noConfusion he)] at hE
            simp at hE
          | str sg =>
            rw [herr _ hst ht (fun f he => Json.noConfusion he)] at hE
            simp at hE
          | arr el =>
            rw [herr _ hst ht (fun f he => Json.noConfusion he)] at hE
            simp at hE
    · rintro ⟨fields, hst, ht, hg⟩
      exact hesc fields hst ht hg
  · intro c n st st1 tags h
    have h0 := h
    unfold runIteration at h
    rcases hch : escalationCheck "escalation_checker" (c.evaluate st)
        with e | ev
    · rw [hch] at h
      exact absurd h (by simp)
    · cases ev with
      | escalate a =>
        rw [hch] at h
        simp only [Except.ok.injEq, Prod.mk.injEq] at h
        constructor
        · simp only [runLoop, h0]
        · exact h.2.2.symm
      | plain a =>
        rw [hch] at h
        simp at h

/-- The escalation check emits a plain event when the stored evaluation
is a mapping whose grade is "fail". -/
theorem escalationCheck_fail (st1 : SessionState)
    (fields : List (String × Json))
    (h1 : stateGet st1 "research_evaluation" = some (Json.obj fields))
    (h2 : Json.dictGet fields "grade" = some (Json.str "fail")) :
    escalationCheck "escalation_checker" st1 =
      Except.ok (CheckEvent.plain "escalation_checker") := by
  have hne : fields.isEmpty = false := lookup_ne_nil h2
  simp [escalationCheck, h1, Json.truthy, hne, h2]

/-- C2: with an evaluator that grades "fail" on every iteration, the loop
with ceiling N runs its body exactly N times (N evaluations and N
research refinements), terminates normally without raising, and leaves as
final state exactly what the N-th iteration produced. -/
theorem c2_loop_runs_to_ceiling (c : LoopCallables) (N : Nat)
    (st : SessionState)
    (hfail : ∀ s, ∃ fields,
      stateGet (c.evaluate s) "research_evaluation" = some (Json.obj fields) ∧
      Json.dictGet fields "grade" = some (Json.str "fail")) :
    ∃ tags, runLoop c N st = Except.ok (loopBodyIter c N st, tags) ∧
      countTag tags StepTag.evalStep = N ∧
      countTag tags StepTag.researchStep = N := by
  induction N generalizing st with
  | zero => exact ⟨[], rfl, rfl, rfl⟩
  | succ n ih =>
    obtain ⟨fields, h1, h2⟩ := hfail st
    have hiter : runIteration c st = Except.ok (c.research (c.evaluate st),
        false, [StepTag.evalStep, StepTag.checkStep, StepTag.researchStep]) := by
      unfold runIteration
      rw [escalationCheck_fail (c.evaluate st) fields h1 h2]
    obtain ⟨tags, hrun, he, hr⟩ := ih (c.research (c.evaluate st))
    refine ⟨[StepTag.evalStep, StepTag.checkStep, StepTag.researchStep] ++ tags,
      ?_, ?_, ?_⟩
    · simp only [runLoop, hiter, hrun, loopBodyIter]
    · have he2 : (tags.filter
          (fun s => decide (s = StepTag.evalStep))).length = n := he
      simp [countTag, List.filter_append, he2]
    · have hr2 : (tags.filter
          (fun s => decide (s = StepTag.researchStep))).length = n := hr
      simp [countTag, List.filter_append, hr2]

/-- C2 witness: the loop evaluated at a concrete always-failing evaluator
with ceiling 3. -/
theorem c2_loop_runs_to_ceiling_witness :
    (∀ s, ∃ fields,
      stateGet (cFail.evaluate s) "research_evaluation" = some (Json.obj fields) ∧
      Json.dictGet fields "grade" = some (Json.str "fail")) ∧
    (∃ tags, runLoop cFail 3 [] = Except.ok (loopBodyIter cFail 3 [], tags) ∧
      countTag tags StepTag.evalStep = 3 ∧
      countTag tags StepTag.researchStep = 3) :=
  ⟨fun _ => ⟨failEvalFields, rfl, rfl⟩,
   c2_loop_runs_to_ceiling cFail 3 []
     (fun _ => ⟨failEvalFields, rfl, rfl⟩)⟩

/-- Scanning a list whose earlier elements all fail the predicate finds a
final element satisfying it. -/
theorem find?_append_singleton {α : Type} (p : α → Bool) (l : List α) (a : α)
    (hl : ∀ x ∈ l, p x = false) (ha : p a = true) :
    (l ++ [a]).find? p = some a := by
  induction l with
  | nil => simp [List.find?, ha]
  | cons x xs ih =>
    rw [List.cons_append, List.find?_cons, hl x (by simp)]
    exact ih fun y hy => hl y (by simp [hy])

/-- Under the intended serialization (the declared datetime → isoformat
encoding, which the module's Config and its own round-trip test assume),
saving an event trace on the local backend and then loading it back by
the returned trace id reproduces the record field for field (session id,
agent name, timestamp to serialization precision, payload), and likewise
for a session snapshot by its snapshot id, provided no already-stored
file name contains the fresh id (ids are fresh UUIDs).  This isolates the
json.dump TypeError shown in c3_save_serialization_bug as the only break
in the round trip the spec states. -/
theorem trace_round_trip_intended (cfg : TracePersistenceConfig) (stores : Stores)
    (clock : Clock) (t : AgentEventTrace) (s : SessionStateSnapshot)
    (hl : cfg.storage_type = "local")
    (hfr1 : ∀ f ∈ stores.files, strContains f.name t.trace_id = false)
    (hfr2 : ∀ f ∈ stores.files, strContains f.name s.snapshot_id = false) :
    (save_event_trace cfg stores clock true t =
      Except.ok (some t.trace_id,
        ⟨stores.files ++
          [⟨traceFileName clock t.trace_id "json", traceToJson t, clock.epoch⟩],
         stores.blobs⟩) ∧
     load_event_trace cfg
       ⟨stores.files ++
          [⟨traceFileName clock t.trace_id "json", traceToJson t, clock.epoch⟩],
        stores.blobs⟩ t.trace_id = some t) ∧
    (save_session_snapshot cfg stores clock true s =
      Except.ok (some s.snapshot_id,
        ⟨stores.files ++
          [⟨traceFileName clock s.snapshot_id "snapshot", snapshotToJson s,
            clock.epoch⟩],
         stores.blobs⟩) ∧
     load_session_snapshot cfg
       ⟨stores.files ++
          [⟨traceFileName clock s.snapshot_id "snapshot", snapshotToJson s,
            clock.epoch⟩],
        stores.blobs⟩ s.snapshot_id = some s) := by
  refine ⟨⟨?_, ?_⟩, ?_, ?_⟩
  · simp [save_event_trace, hl]
  · have hfalse : ∀ f ∈ stores.files,
        (strEndsWith f.name ".json" && strContains f.name t.trace_id) = false := by
      intro f hf
      rw [hfr1 f hf, Bool.and_false]
    have hp : (strEndsWith (traceFileName clock t.trace_id "json") ".json" &&
        strContains (traceFileName clock t.trace_id "json") t.trace_id) = true := by
      rw [traceFileName_json_suffix, traceFileName_contains]
      rfl
    have hfind := find?_append_singleton
      (fun f : TraceFile => strEndsWith f.name ".json" &&
        strContains f.name t.trace_id)
      stores.files
      ⟨traceFileName clock t.trace_id "json", traceToJson t, clock.epoch⟩
      hfalse hp
    simp [load_event_trace, hl, hfind, traceOfJson_toJson]
  · simp [save_session_snapshot, hl]
  · have hfalse : ∀ f ∈ stores.files,
        (strEndsWith f.name ".snapshot" &&
          strContains f.name s.snapshot_id) = false := by
      intro f hf
      rw [hfr2 f hf, Bool.and_false]
    have hp : (strEndsWith (traceFileName clock s.snapshot_id "snapshot")
        ".snapshot" &&
        strContains (traceFileName clock s.snapshot_id "snapshot")
          s.snapshot_id) = true := by
      rw [traceFileName_snapshot_suffix, traceFileName_contains]
      rfl
    have hfind := find?_append_singleton
      (fun f : TraceFile => strEndsWith f.name ".snapshot" &&
        strContains f.name s.snapshot_id)
      stores.files
      ⟨traceFileName clock s.snapshot_id "snapshot", snapshotToJson s,
        clock.epoch⟩
      hfalse hp
    simp [load_session_snapshot, hl, hfind, snapshotOfJson_toJson]

/-- The intended round trip evaluated at a concrete trace and snapshot
written into an empty local store. -/
theorem trace_round_trip_intended_example :
    (localCfg.storage_type = "local" ∧
     (∀ f ∈ (⟨[], []⟩ : Stores).files,
        strContains f.name demoTrace.trace_id = false) ∧
     (∀ f ∈ (⟨[], []⟩ : Stores).files,
        strContains f.name demoSnapshot.snapshot_id = false)) ∧
    ((save_event_trace localCfg ⟨[], []⟩ demoClock true demoTrace =
      Except.ok (some demoTrace.trace_id,
        ⟨[] ++
          [⟨traceFileName demoClock demoTrace.trace_id "json",
            traceToJson demoTrace, demoClock.epoch⟩], []⟩) ∧
     load_event_trace localCfg
       ⟨[] ++
          [⟨traceFileName demoClock demoTrace.trace_id "json",
            traceToJson demoTrace, demoClock.epoch⟩], []⟩
       demoTrace.trace_id = some demoTrace) ∧
    (save_session_snapshot localCfg ⟨[], []⟩ demoClock true demoSnapshot =
      Except.ok (some demoSnapshot.snapshot_id,
        ⟨[] ++
          [⟨traceFileName demoClock demoSnapshot.snapshot_id "snapshot",
            snapshotToJson demoSnapshot, demoClock.epoch⟩], []⟩) ∧
     load_session_snapshot localCfg
       ⟨[] ++
          [⟨traceFileName demoClock demoSnapshot.snapshot_id "snapshot",
            snapshotToJson demoSnapshot, demoClock.epoch⟩], []⟩
       demoSnapshot.snapshot_id = some demoSnapshot)) :=
  ⟨⟨rfl, fun f hf => absurd hf (List.not_mem_nil f),
    fun f hf => absurd hf (List.not_mem_nil f)⟩,
   trace_round_trip_intended localCfg ⟨[], []⟩ demoClock demoTrace demoSnapshot
     rfl (fun f hf => absurd hf (List.not_mem_nil f))
     (fun f hf => absurd hf (List.not_mem_nil f))⟩

/-- C3 (code bug): in the code as written, both save operations raise
TypeError before anything is written: model_dump() in pydantic-v2 python
mode keeps the timestamp as a datetime object (the v1-style
Config.json_encoders does not apply to it), json.dump has no encoder for
datetime, and the except block logs and re-raises — so for every record,
on either backend, save propagates TypeError, returns no id, and the
save-then-load round trip never succeeds.  The repository's own test
(test_trace_persistence.py) asserts the round trip the claim states, so
the claim matches the intent and the code is the slip; the intended
behavior is proven as trace_round_trip_intended. -/
theorem c3_save_serialization_bug :
    (∀ (cfg : TracePersistenceConfig) (stores : Stores) (clock : Clock)
        (ok : Bool) (t : AgentEventTrace),
      cfg.storage_type = "local" ∨ cfg.storage_type = "gcs" →
      save_event_trace_as_written cfg stores clock ok t =
        Except.error
          "TypeError: Object of type datetime is not JSON serializable") ∧
    (∀ (cfg : TracePersistenceConfig) (stores : Stores) (clock : Clock)
        (ok : Bool) (s : SessionStateSnapshot),
      cfg.storage_type = "local" ∨ cfg.storage_type = "gcs" →
      save_session_snapshot_as_written cfg stores clock ok s =
        Except.error
          "TypeError: Object of type datetime is not JSON serializable") ∧
    save_event_trace_as_written localCfg ⟨[], []⟩ demoClock true demoTrace =
      Except.error
        "TypeError: Object of type datetime is not JSON serializable" ∧
    save_session_snapshot_as_written localCfg ⟨[], []⟩ demoClock true
        demoSnapshot =
      Except.error
        "TypeError: Object of type datetime is not JSON serializable" := by
  refine ⟨?_, ?_, rfl, rfl⟩
  · intro cfg stores clock ok t h
    rcases h with h | h <;>
      simp [save_event_trace_as_written, h, jsonDumpFields, traceModelDump,
        jsonDumpVal]
  · intro cfg stores clock ok s h
    rcases h with h | h <;>
      simp [save_session_snapshot_as_written, h, jsonDumpFields,
        snapshotModelDump, jsonDumpVal]

/-- The GCS listing loop is take-after-filter: it returns the first
`limit - acc.length` parsed-and-filtered entries appended to the
accumulator. -/
theorem gcsListLoop_take (f : TraceFile → Option TraceListEntry) :
    ∀ (l : List TraceFile) (acc : List TraceListEntry) (limit : Nat),
      acc.length ≤ limit →
      gcsListLoop f l acc limit =
        acc ++ (l.filterMap f).take (limit - acc.length) := by
  intro l
  induction l with
  | nil =>
    intro acc limit h
    simp [gcsListLoop]
  | cons b rest ih =>
    intro acc limit h
    by_cases hle : limit ≤ acc.length
    · have heq : acc.length = limit := le_antisymm h hle
      simp [gcsListLoop, hle, heq]
    · have hlt : acc.length < limit := lt_of_not_ge hle
      rcases hfb : f b with _ | e
      · rw [gcsListLoop]
        simp only [if_neg hle, hfb]
        rw [ih acc limit h]
        simp [List.filterMap_cons, hfb]
      · rw [gcsListLoop]
        simp only [if_neg hle, hfb]
        rw [ih (acc ++ [e]) limit (by simp; omega)]
        obtain ⟨k, hk⟩ : ∃ k, limit - acc.length = k + 1 :=
          ⟨limit - acc.length - 1, by omega⟩
        have hk2 : limit - (acc ++ [e]).length = k := by simp; omega
        rw [hk2]
        simp only [List.filterMap_cons, hfb]
        rw [hk, List.take_succ_cons]
        simp [List.append_assoc]

/-- C10: list_traces applies its limit differently per backend.  Locally
the newest `limit` files are cut before the session filter, so at most
`limit` records return and a matching trace outside the newest `limit`
files is omitted even when the result is shorter than the limit — shown
concretely: with two stored traces, session filter "s1" and limit 1 the
local listing is empty although raising the limit to 2 returns the
matching trace.  On GCS the limit counts only records that already passed
the session filter: the listing equals take-limit of the filtered
records, and the same two records with limit 1 do return the match. -/
theorem c10_list_traces_limit :
    (∀ (cfg : TracePersistenceConfig) (stores : Stores)
        (sid : Option String) (limit : Nat),
      cfg.storage_type = "local" →
      (list_traces cfg stores sid limit).length ≤ limit) ∧
    list_traces localCfg demoLocalStores (some "s1") 1 = [] ∧
    list_traces localCfg demoLocalStores (some "s1") 2 =
      [⟨some (Json.str "bbb"), some (Json.str "s1"), none, none, none,
        "agent_traces/20250101_000000_bbb.json"⟩] ∧
    (∀ (cfg : TracePersistenceConfig) (stores : Stores)
        (sid : Option String) (limit : Nat),
      cfg.storage_type = "gcs" →
      list_traces cfg stores sid limit =
        ((stores.blobs.filter
            (fun b => strStartsWith b.name cfg.gcs_prefix_dir)).filterMap
          (gcsEntryOf cfg sid)).take limit) ∧
    list_traces gcsCfg demoGcsStores (some "s1") 1 =
      [⟨some (Json.str "bbb"), some (Json.str "s1"), none, none, none,
        "gs://bkt/traces/20250101_000000_bbb.json"⟩] := by
  refine ⟨?_, rfl, rfl, ?_, rfl⟩
  · intro cfg stores sid limit h
    simp only [list_traces, h, if_pos]
    exact le_trans (List.length_filterMap_le _ _) (List.length_take_le _ _)
  · intro cfg stores sid limit h
    have hgcs : cfg.storage_type = "gcs" := h
    have hne : ¬ cfg.storage_type = "local" := by rw [hgcs]; simp
    simp only [list_traces, if_neg hne, hgcs, if_pos]
    rw [gcsListLoop_take (gcsEntryOf cfg sid) _ [] limit (by simp)]
    simp
